import Mathlib

/-!
Verification of the generated Relay query descriptors of the phoenix
repository (`SessionDetailsQuery` from `src/unnamed/part_000` and
`ViewerContextRefetchQuery` from
`src/app/src/contexts/__generated__/ViewerContextRefetchQuery.graphql.ts`)
and of the multi-stage container build in `src/backend.dockerfile`.

The descriptor data model below is a direct shallow embedding of the JSON
object literals in those two generated files: each `"kind"` tag of the
source becomes a constructor, each object field becomes a structure field,
and `null` becomes `none`.  Numeric literal argument values are embedded by
their decimal source token (the source holds the number `0.5`; the
embedding holds the token `"0.5"`, which is also exactly what appears in
the serialized storage key).
-/

/-- Field argument of a selection, as it appears in the generated
descriptors: a `"kind": "Variable"` entry carries the argument name and the
referenced variable name, a `"kind": "Literal"` entry carries the argument
name and the literal value (embedded by its decimal token). -/
inductive Argument where
  | var (name variableName : String)
  | lit (name valueToken : String)
deriving DecidableEq

/-- Entry of `argumentDefinitions` (`"kind": "LocalArgument"`): a declared
operation variable with its default value (`null` in the sources). -/
structure LocalArgument where
  defaultValue : Option String
  name : String
deriving DecidableEq

/-- Node of a selection tree, one constructor per `"kind"` occurring in the
generated descriptors: `ScalarField`, `LinkedField`, `InlineFragment`,
`TypeDiscriminator` and `FragmentSpread`. -/
inductive Selection where
  | scalarField (fieldAlias : Option String) (args : Option (List Argument))
      (name : String) (storageKey : Option String)
  | linkedField (fieldAlias : Option String) (args : Option (List Argument))
      (concreteType : Option String) (name : String) (plural : Bool)
      (selections : List Selection) (storageKey : Option String)
  | inlineFragment (selections : List Selection) (typeCond : String)
      (abstractKey : Option String)
  | typeDiscriminator (abstractKey : String)
  | fragmentSpread (args : Option (List Argument)) (name : String)

/-- The `"fragment"` part of a generated request (`"kind": "Fragment"`). -/
structure Fragment where
  argumentDefinitions : List LocalArgument
  metadata : Option String
  name : String
  selections : List Selection
  typeCond : String
  abstractKey : Option String

/-- The `"operation"` part of a generated request (`"kind": "Operation"`). -/
structure Operation where
  argumentDefinitions : List LocalArgument
  name : String
  selections : List Selection

/-- The `"params"` part of a generated request: cache identity, optional
persisted-query id, operation name and kind, and the wire query text. -/
structure Params where
  cacheID : String
  id : Option String
  name : String
  operationKind : String
  text : String

/-- A generated `ConcreteRequest` (`"kind": "Request"`): fragment tree,
operation tree and request params, as exported by each generated module. -/
structure ConcreteRequest where
  fragment : Fragment
  operation : Operation
  params : Params

namespace SessionDetailsQuery

/-- Transcription of `v0` of `SessionDetailsQuery`: the argument
definitions, a single `LocalArgument` named `id` with `null` default. -/
def v0 : List LocalArgument := [{ defaultValue := none, name := "id" }]

/-- Transcription of `v1`: the argument list `[Variable id := $id]` of the
`node` field. -/
def v1 : List Argument := [.var "id" "id"]

/-- Transcription of `v2`: the plain `id` scalar field. -/
def v2 : Selection := .scalarField none none "id" none

/-- Transcription of `v3`: the shared `{ value }` selection list reused by
the `input` and `output` linked fields. -/
def v3 : List Selection := [.scalarField none none "value" none]

/-- Transcription of `v4`: the inline fragment on `ProjectSession` holding
all session fields of the query. -/
def v4 : Selection := .inlineFragment
  [ .scalarField none none "numTraces" none,
    .linkedField none none (some "TokenUsage") "tokenUsage" false
      [ .scalarField none none "total" none,
        .scalarField none none "completion" none,
        .scalarField none none "prompt" none ] none,
    .scalarField none none "sessionId" none,
    .scalarField (some "latencyP50") (some [.lit "probability" "0.5"])
      "traceLatencyMsQuantile" (some "traceLatencyMsQuantile(probability:0.5)"),
    .linkedField none none (some "TraceConnection") "traces" false
      [ .linkedField none none (some "TraceEdge") "edges" true
        [ .linkedField (some "trace") none (some "Trace") "node" false
          [ .linkedField none none (some "Span") "rootSpan" false
            [ v2,
              .scalarField none none "attributes" none,
              .linkedField none none (some "Project") "project" false [v2] none,
              .linkedField none none (some "SpanIOValue") "input" false v3 none,
              .linkedField none none (some "SpanIOValue") "output" false v3 none,
              .scalarField none none "cumulativeTokenCountTotal" none,
              .scalarField none none "cumulativeTokenCountCompletion" none,
              .scalarField none none "cumulativeTokenCountPrompt" none,
              .scalarField none none "latencyMs" none,
              .scalarField none none "startTime" none,
              .linkedField none none (some "SpanAnnotation") "spanAnnotations" true
                [ .scalarField none none "name" none,
                  .scalarField none none "label" none,
                  .scalarField none none "score" none,
                  .scalarField none none "explanation" none,
                  .scalarField none none "annotatorKind" none ] none,
              .linkedField none none (some "SpanContext") "context" false
                [ .scalarField none none "traceId" none,
                  .scalarField none none "spanId" none ] none ] none ] none ] none ] none ]
  "ProjectSession" none

/-- Wire query text of `SessionDetailsQuery` (`params.text`), transcribed
byte-for-byte from the source. -/
def queryText : String := "query SessionDetailsQuery(\n  $id: GlobalID!\n) \x7b\n  session: node(id: $id) \x7b\n    __typename\n    ... on ProjectSession \x7b\n      numTraces\n      tokenUsage \x7b\n        total\n        completion\n        prompt\n      \x7d\n      sessionId\n      latencyP50: traceLatencyMsQuantile(probability: 0.5)\n      traces \x7b\n        edges \x7b\n          trace: node \x7b\n            rootSpan \x7b\n              id\n              attributes\n              project \x7b\n                id\n              \x7d\n              input \x7b\n                value\n              \x7d\n              output \x7b\n                value\n              \x7d\n              cumulativeTokenCountTotal\n              cumulativeTokenCountCompletion\n              cumulativeTokenCountPrompt\n              latencyMs\n              startTime\n              spanAnnotations \x7b\n                name\n                label\n                score\n                explanation\n                annotatorKind\n              \x7d\n              context \x7b\n                traceId\n                spanId\n              \x7d\n            \x7d\n          \x7d\n        \x7d\n      \x7d\n    \x7d\n    __isNode: __typename\n    id\n  \x7d\n\x7d\n"

/-- The default-exported `ConcreteRequest` of the `SessionDetailsQuery`
module: fragment tree, operation tree and params. -/
def node : ConcreteRequest :=
  { fragment :=
      { argumentDefinitions := v0
        metadata := none
        name := "SessionDetailsQuery"
        selections :=
          [ .linkedField (some "session") (some v1) none "node" false [v4] none ]
        typeCond := "Query"
        abstractKey := none }
    operation :=
      { argumentDefinitions := v0
        name := "SessionDetailsQuery"
        selections :=
          [ .linkedField (some "session") (some v1) none "node" false
              [ .scalarField none none "__typename" none,
                v4,
                .typeDiscriminator "__isNode",
                v2 ] none ]
        }
    params :=
      { cacheID := "44f2433d50767bdcd9eb7c62d1f2cbb7"
        id := none
        name := "SessionDetailsQuery"
        operationKind := "query"
        text := queryText } }

end SessionDetailsQuery

namespace ViewerContextRefetchQuery

/-- Transcription of `v0` of `ViewerContextRefetchQuery`: the plain `id`
scalar field. -/
def v0 : Selection := .scalarField none none "id" none

/-- Transcription of `v1`: the plain `name` scalar field. -/
def v1 : Selection := .scalarField none none "name" none

/-- Wire query text of `ViewerContextRefetchQuery` (`params.text`),
transcribed byte-for-byte from the source. -/
def queryText : String := "query ViewerContextRefetchQuery \x7b\n  ...ViewerContext_viewer\n\x7d\n\nfragment APIKeysTableFragment on User \x7b\n  apiKeys \x7b\n    id\n    name\n    description\n    createdAt\n    expiresAt\n  \x7d\n  id\n\x7d\n\nfragment ViewerContext_viewer on Query \x7b\n  viewer \x7b\n    id\n    username\n    email\n    profilePictureUrl\n    role \x7b\n      name\n    \x7d\n    ...APIKeysTableFragment\n  \x7d\n\x7d\n"

/-- The default-exported `ConcreteRequest` of the
`ViewerContextRefetchQuery` module. -/
def node : ConcreteRequest :=
  { fragment :=
      { argumentDefinitions := []
        metadata := none
        name := "ViewerContextRefetchQuery"
        selections := [ .fragmentSpread none "ViewerContext_viewer" ]
        typeCond := "Query"
        abstractKey := none }
    operation :=
      { argumentDefinitions := []
        name := "ViewerContextRefetchQuery"
        selections :=
          [ .linkedField none none (some "User") "viewer" false
              [ v0,
                .scalarField none none "username" none,
                .scalarField none none "email" none,
                .scalarField none none "profilePictureUrl" none,
                .linkedField none none (some "UserRole") "role" false [v1] none,
                .linkedField none none (some "UserApiKey") "apiKeys" true
                  [ v0,
                    v1,
                    .scalarField none none "description" none,
                    .scalarField none none "createdAt" none,
                    .scalarField none none "expiresAt" none ] none ] none ]
        }
    params :=
      { cacheID := "4c8790abe3ec8e077913422cb62c6b3f"
        id := none
        name := "ViewerContextRefetchQuery"
        operationKind := "query"
        text := queryText } }

end ViewerContextRefetchQuery

/-- The two generated query bindings present in this repository. -/
def repoRequests : List ConcreteRequest :=
  [SessionDetailsQuery.node, ViewerContextRefetchQuery.node]

/-- Instruction of the container build file, one constructor per Dockerfile
instruction kind used in `backend.dockerfile`. -/
inductive DockerInstr where
  | fromImage (image : String) (stageName : Option String)
  | env (key value : String)
  | run (cmd : String)
  | workdir (dir : String)
  | copy (source dest : String)
  | copyFrom (stage source dest : String)
  | cmdExec (args : List String)
deriving DecidableEq

/-- Transcription of `backend.dockerfile`, instruction by instruction in
file order (comment lines carry no instruction).  The container build
executes this sequence in order: stage 1 (`frontend-builder`) first, then
stage 2 (`backend-builder`). -/
def backendDockerfile : List DockerInstr :=
  [ .fromImage "node:20-slim" (some "frontend-builder"),
    .env "PNPM_HOME" "/pnpm",
    .env "PATH" "$PNPM_HOME:$PATH",
    .run "corepack enable",
    .workdir "/phoenix/app/",
    .copy "./app" "/phoenix/app",
    .run "pnpm install",
    .run "pnpm run build",
    .fromImage "python:3.11-bullseye" (some "backend-builder"),
    .workdir "/phoenix",
    .copy "./src" "/phoenix/src",
    .copy "./pyproject.toml" "/phoenix/",
    .copy "./LICENSE" "/phoenix/",
    .copy "./IP_NOTICE" "/phoenix/",
    .copy "./README.md" "/phoenix/",
    .copyFrom "frontend-builder" "/phoenix/src/phoenix/server/static/" "/phoenix/src/phoenix/server/static/",
    .run "find src/ -xtype l -delete",
    .run "pip install --target ./env \".[container, pg]\"",
    .cmdExec ["bash"] ]

/-!
Query-text analysis.  `params.text` is the authoritative wire query text of
a binding; the functions below read the field paths and the variable uses
straight off that text.  The generated texts are line-structured: one field
or punctuation item per line, nesting expressed by `{` and `}`.
-/

/-- Split a character list at every occurrence of the character `c`. -/
def splitChar (c : Char) : List Char → List (List Char)
  | [] => [[]]
  | x :: xs =>
    let rest := splitChar c xs
    if x = c then [] :: rest
    else match rest with
      | [] => [[x]]
      | r :: rs => (x :: r) :: rs

/-- Drop leading space characters. -/
def dropLeadingSpaces : List Char → List Char
  | ' ' :: xs => dropLeadingSpaces xs
  | xs => xs

/-- Longest prefix strictly before the first occurrence of `c`. -/
def takeBeforeChar (c : Char) : List Char → List Char
  | [] => []
  | x :: xs => if x = c then [] else x :: takeBeforeChar c xs

/-- Remove a trailing `{` (and the spaces before it) from a line. -/
def dropTrailingBrace (l : List Char) : List Char :=
  match l.reverse with
  | '\x7b' :: rest => (dropLeadingSpaces rest).reverse
  | _ => l

/-- Response key of a field line of the query text: the alias if the line
is `alias: name ...`, else the field name (text before any argument
list). -/
def keyOfFieldLine (l : List Char) : String :=
  String.mk (takeBeforeChar ':' (takeBeforeChar '(' (dropTrailingBrace l)))

/-- Checks that `pre` is a prefix of `l`. -/
def startsWithChars (pre : List Char) (l : List Char) : Bool :=
  match pre, l with
  | [], _ => true
  | _ :: _, [] => false
  | p :: ps, x :: xs => p = x && startsWithChars ps xs

/-- State of the line-by-line query-text reader: the stack of open braces
(`some key` for a field block, `none` for the operation root or an inline
fragment, which add no path component), the field paths collected so far,
and whether the reader is inside the variable-definitions header. -/
structure PState where
  stack : List (Option String)
  paths : List (List String)
  inHeader : Bool

/-- Process one line of the query text: track the variable-definitions
header, push and pop braces, and record the response path of every field
line (inline fragments contribute no path component). -/
def parseStep (st : PState) (rawLine : List Char) : PState :=
  let line := dropLeadingSpaces rawLine
  if line.isEmpty then st
  else if st.inHeader then
    if startsWithChars ") \x7b".data line then
      { st with inHeader := false, stack := none :: st.stack }
    else st
  else if startsWithChars "query ".data line then
    if line.getLast? = some '(' then { st with inHeader := true }
    else { st with stack := none :: st.stack }
  else if line = ['\x7d'] then { st with stack := st.stack.tail }
  else if startsWithChars "... on ".data line then { st with stack := none :: st.stack }
  else
    let key := keyOfFieldLine line
    let path := (st.stack.filterMap id).reverse ++ [key]
    let st := { st with paths := st.paths ++ [path] }
    if line.getLast? = some '\x7b' then { st with stack := some key :: st.stack }
    else st

/-- Field paths declared in a wire query text: every field line yields the
path of response keys (aliases included) leading to it. -/
def queryTextPaths (text : String) : List (List String) :=
  ((splitChar '\n' text.data).foldl parseStep ⟨[], [], false⟩).paths

/-- Character that may appear in a variable name. -/
def isIdentChar (c : Char) : Bool := c.isAlphanum || c = '_'

/-- State of the variable scanner: the variable name currently being read
(in reverse), and the variable occurrences found so far. -/
structure VState where
  current : Option (List Char)
  found : List String

/-- Process one character of the query text: a `$` starts a variable name,
identifier characters extend it, anything else ends it. -/
def varStep (st : VState) (c : Char) : VState :=
  match st.current with
  | some acc =>
    if isIdentChar c then { st with current := some (c :: acc) }
    else { current := if c = '$' then some [] else none,
           found := st.found ++ [String.mk acc.reverse] }
  | none => if c = '$' then { st with current := some [] } else st

/-- All variable occurrences (`$name`) in a character list, in order. -/
def varOccurrences (l : List Char) : List String :=
  let st := l.foldl varStep ⟨none, []⟩
  match st.current with
  | some acc => st.found ++ [String.mk acc.reverse]
  | none => st.found

/-- Everything after the first `{` of the text: the operation body, past
the name and variable-definitions header. -/
def afterFirstBrace : List Char → List Char
  | [] => []
  | c :: cs => if c = '\x7b' then cs else afterFirstBrace cs

/-- Variable binding sites of a wire query text: the variable occurrences
in the operation body (the declarations in the header before the first `{`
are not binding sites).  The body is scanned line by line; a variable
occurrence never spans a line break. -/
def bodyVarUses (text : String) : List String :=
  ((splitChar '\n' (afterFirstBrace text.data)).map varOccurrences).flatten


/-!
Response Shape.  The exported `SessionDetailsQuery$data` type of the
generated module is a nested readonly object type; the `Shape` grammar
below embeds it: `?`-marked fields are optional, `| null`-typed fields are
nullable, `ReadonlyArray` is `arr`, and the string-literal union
`AnnotatorKind = "HUMAN" | "LLM"` is `enumOf`.
-/

/-- Type-level description of a response value, as declared by the
exported `$data` type: each object field carries its name, whether it is
optional, and its own shape. -/
inductive Shape where
  | num (nullable : Bool)
  | str (nullable : Bool)
  | enumOf (values : List String) (nullable : Bool)
  | obj (nullable : Bool) (fields : List (String × Bool × Shape))
  | arr (elem : Shape)

/-- Shape of the `tokenUsage` object of `SessionDetailsQuery$data`: the
three required non-null numbers `completion`, `prompt`, `total`. -/
def tokenUsageShape : Shape :=
  .obj false
    [ ("completion", false, .num false),
      ("prompt", false, .num false),
      ("total", false, .num false) ]

/-- Shape of the `rootSpan` object of `SessionDetailsQuery$data` (the
object itself is nullable; all its fields are required). -/
def rootSpanShape : Shape :=
  .obj true
    [ ("attributes", false, .str false),
      ("context", false, .obj false
        [ ("spanId", false, .str false), ("traceId", false, .str false) ]),
      ("cumulativeTokenCountCompletion", false, .num true),
      ("cumulativeTokenCountPrompt", false, .num true),
      ("cumulativeTokenCountTotal", false, .num true),
      ("id", false, .str false),
      ("input", false, .obj true [ ("value", false, .str false) ]),
      ("latencyMs", false, .num true),
      ("output", false, .obj true [ ("value", false, .str false) ]),
      ("project", false, .obj false [ ("id", false, .str false) ]),
      ("spanAnnotations", false, .arr (.obj false
        [ ("annotatorKind", false, .enumOf ["HUMAN", "LLM"] false),
          ("explanation", false, .str true),
          ("label", false, .str true),
          ("name", false, .str false),
          ("score", false, .num true) ])),
      ("startTime", false, .str false) ]

/-- Shape of the `session` object of `SessionDetailsQuery$data`,
parameterized by the shape recorded for the `tokenUsage` field (all five
fields are optional, as declared by the `?` markers). -/
def sessionShapeWith (tu : Shape) : Shape :=
  .obj false
    [ ("latencyP50", true, .num true),
      ("numTraces", true, .num false),
      ("sessionId", true, .str false),
      ("tokenUsage", true, tu),
      ("traces", true, .obj false
        [ ("edges", false, .arr (.obj false
          [ ("trace", false, .obj false
            [ ("rootSpan", false, rootSpanShape) ]) ])) ]) ]

/-- The exported `SessionDetailsQuery$data` Response Shape: a required
non-null `session` object. -/
def sessionDetailsDataShape : Shape :=
  .obj false [ ("session", false, sessionShapeWith tokenUsageShape) ]

mutual

/-- Field paths declared by a shape: object fields contribute their name
and, prefixed with it, the paths of their own shape; arrays are
transparent (their element paths are the array's paths). -/
def shapePaths : Shape → List (List String)
  | .obj _ fields => fieldSpecPaths fields
  | .arr elem => shapePaths elem
  | _ => []

/-- Field paths of an object field list. -/
def fieldSpecPaths : List (String × Bool × Shape) → List (List String)
  | [] => []
  | (n, _, s) :: rest =>
    ([n] :: (shapePaths s).map (fun p => n :: p)) ++ fieldSpecPaths rest

end

/-!
Response JSON and shape validation.

Modelled from the spec: the execution engine that checks a response JSON
against the Response Shape is not part of the given sources (only the
generated artifacts are); per spec section 7, "response JSON missing a
declared non-null field" is "surfaced to the execution engine as
shape-validation failures".  `validate` below realises exactly that check:
required fields must be present, present fields must have the declared
shape, `null` passes only where the shape is nullable.
-/

/-- Response JSON value. -/
inductive Json where
  | null
  | str (s : String)
  | num (value : Rat)
  | bool (b : Bool)
  | arr (elems : List Json)
  | obj (fields : List (String × Json))

/-- Look a key up in a JSON object field list (first match). -/
def lookupField : List (String × Json) → String → Option Json
  | [], _ => none
  | (k, v) :: rest, key => if k = key then some v else lookupField rest key

/-- Field of a JSON value: `none` on non-objects and missing keys. -/
def jsonField : Json → String → Option Json
  | .obj fs, key => lookupField fs key
  | _, _ => none

/-- Value at a field path of a JSON value, `none` when the path is
absent. -/
def getPath : Json → List String → Option Json
  | j, [] => some j
  | j, k :: rest => match jsonField j k with
    | some v => getPath v rest
    | none => none

mutual

/-- Shape validation, modelled from the spec: a JSON value conforms to a
shape when every declared required field is present, every present field
recursively conforms, `null` appears only at nullable positions, and
scalars have the declared base type. -/
def validate : Shape → Json → Bool
  | .num nullable, j => match j with
    | .num _ => true
    | .null => nullable
    | _ => false
  | .str nullable, j => match j with
    | .str _ => true
    | .null => nullable
    | _ => false
  | .enumOf values nullable, j => match j with
    | .str s => values.contains s
    | .null => nullable
    | _ => false
  | .obj nullable fields, j => match j with
    | .obj fs => validateFields fields fs
    | .null => nullable
    | _ => false
  | .arr elem, j => match j with
    | .arr xs => xs.all (fun x => validate elem x)
    | _ => false

/-- Validation of an object against a field-spec list: each required field
must be present and conform, each optional field must conform when
present. -/
def validateFields : List (String × Bool × Shape) → List (String × Json) → Bool
  | [], _ => true
  | (n, optional, s) :: rest, fs =>
    (match lookupField fs n with
     | some v => validate s v
     | none => optional) && validateFields rest fs

end


/-!
Projection of a response through a selection tree.

Modelled from the spec: the execution engine "reads the selection trees to
normalize the JSON response into a local store and to project
fragment-scoped views back to UI consumers", and a polymorphic field's
concrete-type branch is "selected at response-processing time by a
server-reported type tag".  `projectSels` below realises that view: each
selection copies its response key (alias first) when present, linked
fields recurse, and an inline fragment contributes its fields exactly when
the server-reported `__typename` equals the fragment's type condition.
Absent fields are simply omitted from the view (absent/undefined, never an
error: the function is total).
-/

/-- Response key under which a field selection is stored: the alias if one
is declared, else the field name. -/
def responseKey (fieldAlias : Option String) (name : String) : String :=
  fieldAlias.getD name

mutual

/-- Projected view of a response object through a selection list: the
concatenation of the entries contributed by each selection. -/
def projectSels : List Selection → List (String × Json) → List (String × Json)
  | [], _ => []
  | s :: rest, fs => projectSel s fs ++ projectSels rest fs

/-- Entries contributed by one selection to the projected view. -/
def projectSel : Selection → List (String × Json) → List (String × Json)
  | .scalarField fieldAlias _ name _, fs =>
    let key := responseKey fieldAlias name
    match lookupField fs key with
    | some v => [(key, v)]
    | none => []
  | .linkedField fieldAlias _ _ name _ sels _, fs =>
    let key := responseKey fieldAlias name
    match lookupField fs key with
    | some (.obj gs) => [(key, .obj (projectSels sels gs))]
    | some (.arr xs) => [(key, .arr (xs.map (fun x => match x with
        | .obj gs => .obj (projectSels sels gs)
        | other => other)))]
    | some other => [(key, other)]
    | none => []
  | .inlineFragment sels typeCond _, fs =>
    match lookupField fs "__typename" with
    | some (.str tn) => if tn = typeCond then projectSels sels fs else []
    | _ => []
  | .typeDiscriminator abstractKey, fs =>
    match lookupField fs abstractKey with
    | some v => [(abstractKey, v)]
    | none => []
  | .fragmentSpread _ _, _ => []

end

mutual

/-- Every selection node of a tree, the node itself and, recursively, the
nodes of linked-field and inline-fragment subtrees. -/
def allNodes : Selection → List Selection
  | .scalarField a b c d => [.scalarField a b c d]
  | .linkedField a b c d e sels f => .linkedField a b c d e sels f :: allNodesList sels
  | .inlineFragment sels t k => .inlineFragment sels t k :: allNodesList sels
  | .typeDiscriminator k => [.typeDiscriminator k]
  | .fragmentSpread a n => [.fragmentSpread a n]

/-- Every selection node of a selection list. -/
def allNodesList : List Selection → List Selection
  | [] => []
  | s :: rest => allNodes s ++ allNodesList rest

end

/-- Field nodes (scalar and linked) of a selection list, each reduced to
its name, argument list and storage key. -/
def fieldNodes (sels : List Selection) :
    List (String × Option (List Argument) × Option String) :=
  (allNodesList sels).filterMap (fun s => match s with
    | .scalarField _ args name storageKey => some (name, args, storageKey)
    | .linkedField _ args _ name _ _ storageKey => some (name, args, storageKey)
    | _ => none)

/-- All field nodes of both selection trees of both generated bindings. -/
def allRepoFieldNodes : List (String × Option (List Argument) × Option String) :=
  (repoRequests.map (fun r => fieldNodes r.fragment.selections ++ fieldNodes r.operation.selections)).flatten

/-- An argument is a literal value (rather than a variable reference). -/
def isLiteralArg : Argument → Bool
  | .lit _ _ => true
  | .var _ _ => false

/-- Serialization of one argument inside a storage key: `name:value` for a
literal, `name:$variable` for a variable reference. -/
def serializeArg : Argument → String
  | .lit n v => n ++ ":" ++ v
  | .var n vn => n ++ ":$" ++ vn

/-- Comma-separated concatenation. -/
def joinComma : List String → String
  | [] => ""
  | [s] => s
  | s :: rest => s ++ "," ++ joinComma rest

/-- Storage key a field with arguments serializes to: the field name
followed by the parenthesized comma-separated arguments. -/
def storageKeyOf (name : String) (args : List Argument) : String :=
  name ++ "(" ++ joinComma (args.map serializeArg) ++ ")"

namespace SessionDetailsQuery

/-- Copy of `v4` in which every reused subtree reference is replaced by an
inlined structural copy: the shared `{ value }` list `v3` is written out
literally at both the `input` and the `output` field, and the shared `id`
scalar `v2` is written out literally at its two occurrences. -/
def v4_inlined : Selection := .inlineFragment
  [ .scalarField none none "numTraces" none,
    .linkedField none none (some "TokenUsage") "tokenUsage" false
      [ .scalarField none none "total" none,
        .scalarField none none "completion" none,
        .scalarField none none "prompt" none ] none,
    .scalarField none none "sessionId" none,
    .scalarField (some "latencyP50") (some [.lit "probability" "0.5"])
      "traceLatencyMsQuantile" (some "traceLatencyMsQuantile(probability:0.5)"),
    .linkedField none none (some "TraceConnection") "traces" false
      [ .linkedField none none (some "TraceEdge") "edges" true
        [ .linkedField (some "trace") none (some "Trace") "node" false
          [ .linkedField none none (some "Span") "rootSpan" false
            [ .scalarField none none "id" none,
              .scalarField none none "attributes" none,
              .linkedField none none (some "Project") "project" false
                [ .scalarField none none "id" none ] none,
              .linkedField none none (some "SpanIOValue") "input" false
                [ .scalarField none none "value" none ] none,
              .linkedField none none (some "SpanIOValue") "output" false
                [ .scalarField none none "value" none ] none,
              .scalarField none none "cumulativeTokenCountTotal" none,
              .scalarField none none "cumulativeTokenCountCompletion" none,
              .scalarField none none "cumulativeTokenCountPrompt" none,
              .scalarField none none "latencyMs" none,
              .scalarField none none "startTime" none,
              .linkedField none none (some "SpanAnnotation") "spanAnnotations" true
                [ .scalarField none none "name" none,
                  .scalarField none none "label" none,
                  .scalarField none none "score" none,
                  .scalarField none none "explanation" none,
                  .scalarField none none "annotatorKind" none ] none,
              .linkedField none none (some "SpanContext") "context" false
                [ .scalarField none none "traceId" none,
                  .scalarField none none "spanId" none ] none ] none ] none ] none ] none ]
  "ProjectSession" none

end SessionDetailsQuery

/-- The three metadata field paths that the wire query text of
`SessionDetailsQuery` declares for polymorphism handling and that the
exported `$data` Response Shape does not contain. -/
def sessionMetadataPaths : List (List String) :=
  [["session", "__typename"], ["session", "__isNode"], ["session", "id"]]

/-- A selection is the `__typename` scalar field. -/
def isTypenameScalar : Selection → Bool
  | .scalarField _ _ n _ => n == "__typename"
  | _ => false

/-- A selection is a type discriminator with abstract key `k`. -/
def isDiscriminator (k : String) : Selection → Bool
  | .typeDiscriminator a => a == k
  | _ => false

/-- Selection list of a polymorphic field shaped as a declared abstract
capability plus concrete-type branches: it contains a type discriminator
and the `id` scalar field, and every selection in it is either metadata
(`__typename`, `id`, a type discriminator) or an inline fragment naming a
concrete type. -/
def isAbstractCapabilityOk (sels : List Selection) : Bool :=
  sels.any (fun s => match s with | .typeDiscriminator _ => true | _ => false)
  && sels.any (fun s => match s with | .scalarField _ _ n _ => n == "id" | _ => false)
  && sels.all (fun s => match s with
      | .scalarField _ _ n _ => n == "__typename" || n == "id"
      | .typeDiscriminator _ => true
      | .inlineFragment _ t _ => t != ""
      | _ => false)

/-- Every linked field of the tree whose concrete type is not statically
known (`concreteType` is `null`) has the abstract-capability-plus-branches
form. -/
def polymorphicFieldsOk (sels : List Selection) : Bool :=
  (allNodesList sels).all (fun s => match s with
    | .linkedField _ _ none _ _ subsels _ => isAbstractCapabilityOk subsels
    | _ => true)

/-- The stage-1 build step of the container file. -/
def isStage1Build : DockerInstr → Bool
  | .run c => c == "pnpm run build"
  | _ => false

/-- The stage-2 instruction copying the stage-1 static bundle. -/
def isBundleCopy : DockerInstr → Bool
  | .copyFrom st _ _ => st == "frontend-builder"
  | _ => false

/-- The step deleting development symbolic links. -/
def isSymlinkDelete : DockerInstr → Bool
  | .run c => c == "find src/ -xtype l -delete"
  | _ => false

/-- The dependency-install/packaging step of stage 2. -/
def isPipInstall : DockerInstr → Bool
  | .run c => c == "pip install --target ./env \".[container, pg]\""
  | _ => false

/-- Any instruction copying sources or build products into the image. -/
def isCopyInstr : DockerInstr → Bool
  | .copy _ _ => true
  | .copyFrom _ _ _ => true
  | _ => false

set_option maxRecDepth 40000 in
/-- Evaluation of the query-text paths of `SessionDetailsQuery`: the 37
field paths its wire query text declares, in text order. -/
theorem sessionDetails_textPaths_eval :
    queryTextPaths SessionDetailsQuery.queryText =
    [["session"], ["session", "__typename"], ["session", "numTraces"], ["session", "tokenUsage"], ["session", "tokenUsage", "total"], ["session", "tokenUsage", "completion"], ["session", "tokenUsage", "prompt"], ["session", "sessionId"], ["session", "latencyP50"], ["session", "traces"], ["session", "traces", "edges"], ["session", "traces", "edges", "trace"], ["session", "traces", "edges", "trace", "rootSpan"], ["session", "traces", "edges", "trace", "rootSpan", "id"], ["session", "traces", "edges", "trace", "rootSpan", "attributes"], ["session", "traces", "edges", "trace", "rootSpan", "project"], ["session", "traces", "edges", "trace", "rootSpan", "project", "id"], ["session", "traces", "edges", "trace", "rootSpan", "input"], ["session", "traces", "edges", "trace", "rootSpan", "input", "value"], ["session", "traces", "edges", "trace", "rootSpan", "output"], ["session", "traces", "edges", "trace", "rootSpan", "output", "value"], ["session", "traces", "edges", "trace", "rootSpan", "cumulativeTokenCountTotal"], ["session", "traces", "edges", "trace", "rootSpan", "cumulativeTokenCountCompletion"], ["session", "traces", "edges", "trace", "rootSpan", "cumulativeTokenCountPrompt"], ["session", "traces", "edges", "trace", "rootSpan", "latencyMs"], ["session", "traces", "edges", "trace", "rootSpan", "startTime"], ["session", "traces", "edges", "trace", "rootSpan", "spanAnnotations"], ["session", "traces", "edges", "trace", "rootSpan", "spanAnnotations", "name"], ["session", "traces", "edges", "trace", "rootSpan", "spanAnnotations", "label"], ["session", "traces", "edges", "trace", "rootSpan", "spanAnnotations", "score"], ["session", "traces", "edges", "trace", "rootSpan", "spanAnnotations", "explanation"], ["session", "traces", "edges", "trace", "rootSpan", "spanAnnotations", "annotatorKind"], ["session", "traces", "edges", "trace", "rootSpan", "context"], ["session", "traces", "edges", "trace", "rootSpan", "context", "traceId"], ["session", "traces", "edges", "trace", "rootSpan", "context", "spanId"], ["session", "__isNode"], ["session", "id"]] := by
  decide

set_option maxRecDepth 40000 in
/-- Evaluation of the Response Shape paths of `SessionDetailsQuery`: the 34
field paths of the exported `$data` type, in declaration order. -/
theorem sessionDetails_dataPaths_eval :
    shapePaths sessionDetailsDataShape =
    [["session"], ["session", "latencyP50"], ["session", "numTraces"], ["session", "sessionId"], ["session", "tokenUsage"], ["session", "tokenUsage", "completion"], ["session", "tokenUsage", "prompt"], ["session", "tokenUsage", "total"], ["session", "traces"], ["session", "traces", "edges"], ["session", "traces", "edges", "trace"], ["session", "traces", "edges", "trace", "rootSpan"], ["session", "traces", "edges", "trace", "rootSpan", "attributes"], ["session", "traces", "edges", "trace", "rootSpan", "context"], ["session", "traces", "edges", "trace", "rootSpan", "context", "spanId"], ["session", "traces", "edges", "trace", "rootSpan", "context", "traceId"], ["session", "traces", "edges", "trace", "rootSpan", "cumulativeTokenCountCompletion"], ["session", "traces", "edges", "trace", "rootSpan", "cumulativeTokenCountPrompt"], ["session", "traces", "edges", "trace", "rootSpan", "cumulativeTokenCountTotal"], ["session", "traces", "edges", "trace", "rootSpan", "id"], ["session", "traces", "edges", "trace", "rootSpan", "input"], ["session", "traces", "edges", "trace", "rootSpan", "input", "value"], ["session", "traces", "edges", "trace", "rootSpan", "latencyMs"], ["session", "traces", "edges", "trace", "rootSpan", "output"], ["session", "traces", "edges", "trace", "rootSpan", "output", "value"], ["session", "traces", "edges", "trace", "rootSpan", "project"], ["session", "traces", "edges", "trace", "rootSpan", "project", "id"], ["session", "traces", "edges", "trace", "rootSpan", "spanAnnotations"], ["session", "traces", "edges", "trace", "rootSpan", "spanAnnotations", "annotatorKind"], ["session", "traces", "edges", "trace", "rootSpan", "spanAnnotations", "explanation"], ["session", "traces", "edges", "trace", "rootSpan", "spanAnnotations", "label"], ["session", "traces", "edges", "trace", "rootSpan", "spanAnnotations", "name"], ["session", "traces", "edges", "trace", "rootSpan", "spanAnnotations", "score"], ["session", "traces", "edges", "trace", "rootSpan", "startTime"]] := by
  decide

set_option maxRecDepth 40000 in
/-- C1, counterexample: the claimed bijection between the field paths of
the Response Shape and the field paths of the wire query text fails for
`SessionDetailsQuery` at the concrete path `session.__typename`: that path
is declared in the query text but the exported `$data` Response Shape does
not contain it. -/
theorem c1_counterexample_typename_path :
    (queryTextPaths SessionDetailsQuery.queryText).contains
      ["session", "__typename"] = true ∧
    (shapePaths sessionDetailsDataShape).contains
      ["session", "__typename"] = false := by
  rw [sessionDetails_textPaths_eval, sessionDetails_dataPaths_eval]
  constructor <;> decide

set_option maxRecDepth 40000 in
/-- C1, amended: every field path of the Response Shape (the exported
`$data` type) of `SessionDetailsQuery` appears in its wire query text, but
the converse fails: the query text additionally declares exactly the three
polymorphism-metadata paths `session.__typename`, `session.__isNode` and
`session.id`, which the Response Shape does not contain.  So text paths
and shape paths agree exactly up to those metadata paths, and the claimed
bijection does not hold. -/
theorem c1_response_shape_paths_vs_text :
    ((shapePaths sessionDetailsDataShape).all
      (fun p => (queryTextPaths SessionDetailsQuery.queryText).contains p) = true) ∧
    ((queryTextPaths SessionDetailsQuery.queryText).all
      (fun p => (shapePaths sessionDetailsDataShape).contains p
        || sessionMetadataPaths.contains p) = true) ∧
    (sessionMetadataPaths.all
      (fun p => (queryTextPaths SessionDetailsQuery.queryText).contains p
        && !(shapePaths sessionDetailsDataShape).contains p) = true) := by
  simp only [sessionDetails_textPaths_eval, sessionDetails_dataPaths_eval]
  refine ⟨by decide, by decide, by decide⟩

set_option maxRecDepth 40000 in
/-- C2: the cache identity is a function of the query text across the
generated bindings of this repository: the two bindings have byte-for-byte
distinct wire texts and distinct `cacheID`s, and among all pairs of repo
bindings, equal text implies equal cache identity.  The identity is
independent of variable values by construction: `params` holds a fixed
string for each binding. -/
theorem c2_cacheID_function_of_text :
    SessionDetailsQuery.node.params.text ≠ ViewerContextRefetchQuery.node.params.text ∧
    SessionDetailsQuery.node.params.cacheID ≠ ViewerContextRefetchQuery.node.params.cacheID ∧
    (repoRequests.all (fun a => repoRequests.all (fun b =>
      (a.params.text != b.params.text) || (a.params.cacheID == b.params.cacheID))) = true) := by
  refine ⟨by decide, by decide, by decide⟩

set_option maxRecDepth 40000 in
/-- C5: in every generated binding, each variable declared in the
`argumentDefinitions` occurs in the operation body of the wire query text
exactly once as a binding site (for `SessionDetailsQuery` the single
declared variable `id` occurs once, at `node(id: $id)`), and every
variable occurring in the body is declared. -/
theorem c5_variables_bound_exactly_once :
    (repoRequests.all (fun r =>
      (r.operation.argumentDefinitions.map LocalArgument.name).all
        (fun v => (bodyVarUses r.params.text).count v == 1)
      && (bodyVarUses r.params.text).all
        (fun u => (r.operation.argumentDefinitions.map LocalArgument.name).contains u))) = true := by
  decide

set_option maxRecDepth 40000 in
/-- C6: each generated binding exposes a nonempty canonical query text, a
nonempty cache identity, and the variable schema, shared identically by
its fragment tree and its operation tree; and in `SessionDetailsQuery` the
operation tree contains the polymorphism metadata — the `__typename`
scalar field and the `__isNode` type discriminator — that the fragment
tree does not contain. -/
theorem c6_bindings_expose_both_trees :
    (repoRequests.all (fun r =>
      (r.params.text != "") && (r.params.cacheID != "")
      && (r.params.name == r.operation.name)
      && decide (r.fragment.argumentDefinitions = r.operation.argumentDefinitions)) = true) ∧
    ((allNodesList SessionDetailsQuery.node.operation.selections).any isTypenameScalar = true) ∧
    ((allNodesList SessionDetailsQuery.node.operation.selections).any
      (isDiscriminator "__isNode") = true) ∧
    ((allNodesList SessionDetailsQuery.node.fragment.selections).any isTypenameScalar = false) ∧
    ((allNodesList SessionDetailsQuery.node.fragment.selections).any
      (isDiscriminator "__isNode") = false) := by
  refine ⟨by decide, by decide, by decide, by decide, by decide⟩

set_option maxRecDepth 40000 in
/-- C8: in the operation trees of both generated bindings, every linked
field whose concrete type is not statically known (`concreteType` is
`null`) is represented as a declared abstract capability — a type
discriminator plus the `id` field — together with named concrete-type
branches only; and the `session`/`node` field of `SessionDetailsQuery` is
such a field, carrying an inline-fragment branch on `ProjectSession`. -/
theorem c8_polymorphic_fields_are_capability_plus_branches :
    (polymorphicFieldsOk SessionDetailsQuery.node.operation.selections = true) ∧
    (polymorphicFieldsOk ViewerContextRefetchQuery.node.operation.selections = true) ∧
    ((allNodesList SessionDetailsQuery.node.operation.selections).any (fun s => match s with
      | .linkedField (some a) _ none "node" _ subsels _ =>
          a == "session" && subsels.any (fun t => match t with
            | .inlineFragment _ tc _ => tc == "ProjectSession"
            | _ => false)
      | _ => false) = true) := by
  refine ⟨by decide, by decide, by decide⟩

/-- C9: in the ordered instruction sequence of `backend.dockerfile`, the
stage-2 copy of the stage-1 static bundle comes after stage 1's build
step, and the step deleting development symbolic links comes after every
source and bundle copy and before the dependency-install/packaging step
(which is present). -/
theorem c9_build_step_ordering :
    (backendDockerfile.findIdx isStage1Build < backendDockerfile.findIdx isBundleCopy) ∧
    (backendDockerfile.findIdx isBundleCopy < backendDockerfile.findIdx isSymlinkDelete) ∧
    (backendDockerfile.enum.all (fun p =>
      !(isCopyInstr p.2) || decide (p.1 < backendDockerfile.findIdx isSymlinkDelete)) = true) ∧
    (backendDockerfile.findIdx isSymlinkDelete < backendDockerfile.findIdx isPipInstall) ∧
    (backendDockerfile.findIdx isPipInstall < backendDockerfile.length) := by
  refine ⟨by decide, by decide, by decide, by decide, by decide⟩

set_option maxRecDepth 40000 in
/-- C10: across every field node of both selection trees of both generated
descriptors, a precomputed non-null `storageKey` is present exactly when
the field's `args` is a non-null list of literal values; every non-null
`storageKey` equals the field name with its serialized arguments; and the
aliased `latencyP50` field (name `traceLatencyMsQuantile`, literal
argument `probability: 0.5`) is the field carrying
`"traceLatencyMsQuantile(probability:0.5)"`. -/
theorem c10_storageKey_iff_literal_args :
    (allRepoFieldNodes.all (fun p =>
      p.2.2.isSome == (match p.2.1 with
        | some args => args.all isLiteralArg
        | none => false)) = true) ∧
    (allRepoFieldNodes.all (fun p => match p.2.2 with
      | some s => s == storageKeyOf p.1 (p.2.1.getD [])
      | none => true) = true) ∧
    (allRepoFieldNodes.contains ("traceLatencyMsQuantile",
        some [.lit "probability" "0.5"],
        some "traceLatencyMsQuantile(probability:0.5)") = true) := by
  refine ⟨by decide, by decide, by decide⟩

/-- C7: replacing the reused subtree references of `SessionDetailsQuery`
(the shared `{ value }` list `v3` at the `input` and `output` fields, and
the shared `id` scalar `v2`) by inlined structural copies yields the very
same selection tree, so projecting any response object through the inlined
tree gives exactly the projected view of the original referenced form:
shared subtree reuse is semantically transparent. -/
theorem c7_inlined_subtree_projection_transparent :
    SessionDetailsQuery.v4_inlined = SessionDetailsQuery.v4 ∧
    ∀ fs : List (String × Json),
      projectSels [SessionDetailsQuery.v4_inlined] fs =
      projectSels [SessionDetailsQuery.v4] fs := by
  refine ⟨rfl, fun fs => rfl⟩

/-- Modelled from the spec: the hypothesis "all other declared required
fields being present and well-typed" of the `tokenUsage.total` acceptance
example is encoded as conformance to the Response Shape with only the
`total` requirement dropped (marked optional); every other declared field
of `SessionDetailsQuery$data` is unchanged. -/
def sessionDetailsShapeTotalOptional : Shape :=
  .obj false
    [ ("session", false, sessionShapeWith (.obj false
        [ ("completion", false, .num false),
          ("prompt", false, .num false),
          ("total", true, .num false) ])) ]

/-- Decomposition of a successful path lookup: the value is an object, the
key is present in it, and the rest of the path succeeds in the
sub-value. -/
theorem getPath_cons_some {j : Json} {k : String} {rest : List String} {v : Json}
    (h : getPath j (k :: rest) = some v) :
    ∃ fs w, j = Json.obj fs ∧ lookupField fs k = some w ∧ getPath w rest = some v := by
  cases j with
  | obj fs =>
    have h' : (match lookupField fs k with
        | some w => getPath w rest
        | none => (none : Option Json)) = some v := by
      simpa [getPath, jsonField] using h
    rcases hl : lookupField fs k with _ | w
    · rw [hl] at h'
      exact absurd h' (by simp)
    · rw [hl] at h'
      exact ⟨fs, w, rfl, hl, h'⟩
  | null => simp [getPath, jsonField] at h
  | str s => simp [getPath, jsonField] at h
  | num n => simp [getPath, jsonField] at h
  | bool b => simp [getPath, jsonField] at h
  | arr xs => simp [getPath, jsonField] at h

/-- C4: shape validation against the `SessionDetailsQuery` binding rejects
every response JSON that contains `session.tokenUsage` but omits the
declared non-null field `total`, and accepts every response JSON that
includes `session.tokenUsage.total` as a number and is otherwise
conformant (all other declared required fields present and well-typed,
encoded as conformance to the shape with only the `total` requirement
dropped). -/
theorem c4_tokenUsage_total_required :
    (∀ (j tu : Json),
      getPath j ["session", "tokenUsage"] = some tu →
      jsonField tu "total" = none →
      validate sessionDetailsDataShape j = false) ∧
    (∀ (j : Json) (q : Rat),
      getPath j ["session", "tokenUsage", "total"] = some (Json.num q) →
      validate sessionDetailsShapeTotalOptional j = true →
      validate sessionDetailsDataShape j = true) := by
  constructor
  · intro j tu h1 h2
    obtain ⟨fs, s, rfl, hsess, h1'⟩ := getPath_cons_some h1
    obtain ⟨gs, tu', rfl, htu, h1''⟩ := getPath_cons_some h1'
    have htu' : tu' = tu := by simpa [getPath] using h1''
    subst htu'
    cases tu' with
    | obj hs =>
      have htot : lookupField hs "total" = none := by simpa [jsonField] using h2
      simp [validate, validateFields, sessionDetailsDataShape, sessionShapeWith,
        tokenUsageShape, hsess, htu, htot]
    | null =>
      simp [validate, validateFields, sessionDetailsDataShape, sessionShapeWith,
        tokenUsageShape, hsess, htu]
    | str s =>
      simp [validate, validateFields, sessionDetailsDataShape, sessionShapeWith,
        tokenUsageShape, hsess, htu]
    | num n =>
      simp [validate, validateFields, sessionDetailsDataShape, sessionShapeWith,
        tokenUsageShape, hsess, htu]
    | bool b =>
      simp [validate, validateFields, sessionDetailsDataShape, sessionShapeWith,
        tokenUsageShape, hsess, htu]
    | arr xs =>
      simp [validate, validateFields, sessionDetailsDataShape, sessionShapeWith,
        tokenUsageShape, hsess, htu]
  · intro j q h1 h2
    obtain ⟨fs, s, rfl, hsess, h1'⟩ := getPath_cons_some h1
    obtain ⟨gs, tu, rfl, htu, h1''⟩ := getPath_cons_some h1'
    obtain ⟨hs, tv, rfl, htot, h1'''⟩ := getPath_cons_some h1''
    have htv : tv = Json.num q := by simpa [getPath] using h1'''
    subst htv
    simp only [validate, validateFields, sessionDetailsDataShape,
      sessionDetailsShapeTotalOptional, sessionShapeWith, tokenUsageShape,
      hsess, htu, htot] at h2 ⊢
    exact h2

/-- C3: for the polymorphic `session` field of `SessionDetailsQuery`,
selected on `ProjectSession` only via the inline fragment: projecting any
response whose server-reported `__typename` is `"ProjectSession"` through
the binding's operation selection tree exposes `numTraces` (with the value
the server sent), while any other reported type name yields a projected
view with `numTraces` absent — the projection is total, so no error is
produced. -/
theorem c3_inline_fragment_projection :
    ∀ (rfs fs : List (String × Json)) (t : String) (v : Json),
      lookupField rfs "session" = some (Json.obj fs) →
      lookupField fs "__typename" = some (Json.str t) →
      ((t = "ProjectSession" →
        lookupField fs "numTraces" = some v →
        getPath (Json.obj (projectSels SessionDetailsQuery.node.operation.selections rfs))
          ["session", "numTraces"] = some v) ∧
       (t ≠ "ProjectSession" →
        getPath (Json.obj (projectSels SessionDetailsQuery.node.operation.selections rfs))
          ["session", "numTraces"] = none)) := by
  intro rfs fs t v hsess htn
  constructor
  · intro ht hnum
    subst ht
    simp [projectSels, projectSel, SessionDetailsQuery.node, SessionDetailsQuery.v4,
      SessionDetailsQuery.v2, SessionDetailsQuery.v1, SessionDetailsQuery.v0,
      responseKey, getPath, jsonField, lookupField, hsess, htn, hnum]
  · intro ht
    rcases hdisc : lookupField fs "__isNode" with _ | w <;>
    rcases hid : lookupField fs "id" with _ | u <;>
    simp [projectSels, projectSel, SessionDetailsQuery.node, SessionDetailsQuery.v4,
      SessionDetailsQuery.v2, SessionDetailsQuery.v1, SessionDetailsQuery.v0,
      responseKey, getPath, jsonField, lookupField, hsess, htn, hdisc, hid, ht]

/-- Witness for C3 at concrete inputs: a `ProjectSession` response exposes
the sent `numTraces` value in the projected view, and a response reporting
type `Trace` projects to a view without `numTraces`. -/
theorem c3_inline_fragment_projection_witness :
    getPath (Json.obj (projectSels SessionDetailsQuery.node.operation.selections
      [("session", Json.obj
        [("__typename", Json.str "ProjectSession"), ("numTraces", Json.num 12)])]))
      ["session", "numTraces"] = some (Json.num 12) ∧
    getPath (Json.obj (projectSels SessionDetailsQuery.node.operation.selections
      [("session", Json.obj [("__typename", Json.str "Trace")])]))
      ["session", "numTraces"] = none :=
  ⟨(c3_inline_fragment_projection
      [("session", Json.obj
        [("__typename", Json.str "ProjectSession"), ("numTraces", Json.num 12)])]
      [("__typename", Json.str "ProjectSession"), ("numTraces", Json.num 12)]
      "ProjectSession" (Json.num 12) rfl rfl).1 rfl rfl,
   (c3_inline_fragment_projection
      [("session", Json.obj [("__typename", Json.str "Trace")])]
      [("__typename", Json.str "Trace")]
      "Trace" Json.null rfl rfl).2 (by decide)⟩

/-- Witness for C4 at concrete inputs: a response whose `tokenUsage` omits
`total` is rejected, and the same response with `total` present as a
number is accepted. -/
theorem c4_tokenUsage_total_required_witness :
    validate sessionDetailsDataShape (Json.obj [("session", Json.obj
      [("tokenUsage", Json.obj
        [("completion", Json.num 10), ("prompt", Json.num 20)])])]) = false ∧
    validate sessionDetailsDataShape (Json.obj [("session", Json.obj
      [("tokenUsage", Json.obj
        [("completion", Json.num 10), ("prompt", Json.num 20),
         ("total", Json.num 30)])])]) = true :=
  ⟨c4_tokenUsage_total_required.1
      (Json.obj [("session", Json.obj [("tokenUsage", Json.obj
        [("completion", Json.num 10), ("prompt", Json.num 20)])])])
      (Json.obj [("completion", Json.num 10), ("prompt", Json.num 20)]) rfl rfl,
   c4_tokenUsage_total_required.2
      (Json.obj [("session", Json.obj [("tokenUsage", Json.obj
        [("completion", Json.num 10), ("prompt", Json.num 20),
         ("total", Json.num 30)])])])
      30 rfl (by decide)⟩
